import Mathlib

/-
Verification of the qopt optimization module (qopt/optimize.py).

Shallow embedding conventions:
* numpy arrays holding the flat optimization parameters and the pulse
  (control-amplitude array) are modelled by one abstract type alpha, since in
  numpy both are plain ndarrays and the code freely reshapes one into the
  other.  The fixed reshape convention (x.reshape(pulse_shape[::-1]).T) is a
  state field reshape_to_pulse : alpha -> alpha.
* cost vectors are List Rat (numpy float arrays of shape (n_fun,); the real
  arithmetic performed on them by the module is only elementwise
  multiplication by weights, squaring and summation, which stays rational).
* np.linalg.norm comparisons: for vectors v, w one has norm v < norm w iff
  normSq v < normSq w because the square root is strictly monotone on the
  nonnegative reals, so the embedding compares sums of squares and stays in
  Rat.  The initial value _min_costs = np.inf is encoded as none in
  Option (List Rat): every finite norm compares below it.
* wall-clock time is passed in explicitly: prepare_optimization receives the
  start timestamp and each cost evaluation receives the timestamp at which
  time.time() is read inside cost_fktn_wrapper.
* python exceptions are an explicit error type PyError; a function that can
  raise returns Except PyError or a dedicated sum type.
-/

/-- PyError enumerates the python exception classes the embedded code can
raise: ValueError (explicit raises in the source), TypeError (subscripting
None), AttributeError (calling .reshape on None). -/
inductive PyError where
  | valueError
  | typeError
  | attributeError
deriving DecidableEq

/-- TerminationConditions embeds the termination-condition dictionary with
its six named numeric entries (optimize.py lines 65-72).  max_iterations is
stored as a natural number (the source stores the integer 10000 and passes it
as an iteration count). -/
structure TerminationConditions where
  min_gradient_norm : ℚ
  min_cost_gain : ℚ
  max_wall_time : ℚ
  max_cost_func_calls : ℚ
  max_iterations : ℕ
  min_amplitude_change : ℚ
deriving DecidableEq

/-- default_termination_conditions embeds the module-level dictionary
default_termination_conditions of optimize.py: 1e-7, 1e-7, 10*60.0, 1e6,
10000, 1e-8. -/
def default_termination_conditions : TerminationConditions :=
  { min_gradient_norm := 1 / 10 ^ 7
    min_cost_gain := 1 / 10 ^ 7
    max_wall_time := 10 * 60
    max_cost_func_calls := 10 ^ 6
    max_iterations := 10000
    min_amplitude_change := 1 / 10 ^ 8 }

/-- normSq is the squared euclidean norm of a cost vector.  The source
compares np.linalg.norm values; comparing squared norms is equivalent since
the square root is strictly monotone. -/
def normSq (v : List ℚ) : ℚ := (v.map (fun x => x * x)).sum

/-- norm_lt_min_costs embeds the comparison
np.linalg.norm(costs) < np.linalg.norm(self._min_costs) from
Optimizer.cost_fktn_wrapper.  _min_costs is np.inf right after
prepare_optimization (encoded none), and np.linalg.norm(np.inf) = inf, so any
finite cost vector compares below it. -/
def norm_lt_min_costs (costs : List ℚ) : Option (List ℚ) → Bool
  | none => true
  | some m => decide (normSq costs < normSq m)

/-- apply_cost_fktn_weights embeds the statement
costs *= self.cost_fktn_weights (elementwise multiplication), guarded by
cost_fktn_weights is not None. -/
def apply_cost_fktn_weights : Option (List ℚ) → List ℚ → List ℚ
  | none, costs => costs
  | some w, costs => List.zipWith (fun c wi => c * wi) costs w

/-- Optimizer_init_cost_fktn_weights embeds the weight handling of
Optimizer.__init__ (optimize.py lines 127-137): None stays None; otherwise
the sequence is flattened (identity on a 1-D sequence), a zero-length vector
normalizes to None, and a length different from the number of cost functions
of the simulator raises ValueError. -/
def Optimizer_init_cost_fktn_weights
    (cost_fktn_weights : Option (List ℚ)) (n_cost_fktns : ℕ) :
    Except PyError (Option (List ℚ)) :=
  match cost_fktn_weights with
  | none => .ok none
  | some w =>
      if w.length = 0 then .ok none
      else if ¬ (n_cost_fktns = w.length) then .error .valueError
      else .ok (some w)

/-- OptimizerState collects the optimizer-owned attributes read and written
by cost_fktn_wrapper, prepare_optimization and write_state_to_result.  The
iteration summary object (optimization_data.OptimizationSummary) is inlined
as its iter_num / costs / parameters fields; the collaborator simulator is
passed to the operations as an explicit function argument.  The field
reshape_to_pulse is the fixed map
x.reshape(self.pulse_shape[::-1]).T set up by the pulse shape recorded in
prepare_optimization. -/
structure OptimizerState (α : Type) where
  termination_conditions : TerminationConditions
  use_jacobian_function : Bool
  save_intermediary_steps : Bool
  cost_fktn_weights : Option (List ℚ)
  reshape_to_pulse : α → α
  opt_start_time : ℚ
  iter_num : ℕ
  summary_costs : List (List ℚ)
  summary_parameters : List α
  min_costs : Option (List ℚ)
  min_costs_par : Option α
  n_cost_fkt_eval : ℕ
  n_jac_fkt_eval : ℕ

/-- CostEvalResult is the outcome of one call to Optimizer.cost_fktn_wrapper:
either the WallTimeExceeded exception or the returned cost vector. -/
inductive CostEvalResult where
  | wallTimeExceeded
  | ok (costs : List ℚ)
deriving DecidableEq

/-- Optimizer_cost_fktn_wrapper embeds Optimizer.cost_fktn_wrapper
(optimize.py lines 139-178).  simCost is the collaborator
system_simulator.wrapped_cost_functions; now is the value time.time() reads
at the top of the call.

Aliasing note, decisive for the recorded values: the source appends the
ndarray costs to optim_iter_summary.costs and assigns it to _min_costs BEFORE
executing costs *= self.cost_fktn_weights, but the in-place multiplication
mutates that very ndarray, so the summary entry appended in this call and a
_min_costs set in this call end up holding the weighted vector.  The
embedding therefore stores final_costs (the post-mutation contents) in
those slots.  A _min_costs kept from an earlier call is a different ndarray
and is not affected. -/
def Optimizer_cost_fktn_wrapper {α : Type} (simCost : α → List ℚ)
    (s : OptimizerState α) (now : ℚ) (optimization_parameters : α) :
    OptimizerState α × CostEvalResult :=
  if s.termination_conditions.max_wall_time < now - s.opt_start_time then
    (s, .wallTimeExceeded)
  else
    let pulse := s.reshape_to_pulse optimization_parameters
    let costs := simCost pulse
    let improved := norm_lt_min_costs costs s.min_costs
    let final_costs := apply_cost_fktn_weights s.cost_fktn_weights costs
    let s1 :=
      if s.save_intermediary_steps then
        { s with iter_num := s.iter_num + 1
                 summary_costs := s.summary_costs ++ [final_costs]
                 summary_parameters := s.summary_parameters ++ [pulse] }
      else s
    let s2 :=
      if improved then
        { s1 with min_costs := some final_costs, min_costs_par := some pulse }
      else s1
    ({ s2 with n_cost_fkt_eval := s2.n_cost_fkt_eval + 1 }, .ok final_costs)

/-- ScalarEvalResult is the outcome of one call to
ScalarMinimizingOptimizer.cost_fktn_wrapper. -/
inductive ScalarEvalResult where
  | wallTimeExceeded
  | ok (cost : ℚ)
deriving DecidableEq

/-- ScalarMinimizingOptimizer_cost_fktn_wrapper embeds
ScalarMinimizingOptimizer.cost_fktn_wrapper (optimize.py lines 417-421):
it calls the base wrapper and reduces the cost vector with
np.sum(costs ** 2), which is exactly normSq. -/
def ScalarMinimizingOptimizer_cost_fktn_wrapper {α : Type}
    (simCost : α → List ℚ) (s : OptimizerState α) (now : ℚ)
    (optimization_parameters : α) : OptimizerState α × ScalarEvalResult :=
  match Optimizer_cost_fktn_wrapper simCost s now optimization_parameters with
  | (s1, .wallTimeExceeded) => (s1, .wallTimeExceeded)
  | (s1, .ok costs) => (s1, .ok (normSq costs))

/-- Optimizer_prepare_optimization embeds Optimizer.prepare_optimization
(optimize.py lines 233-254): the evaluation state is reset, a fresh
iteration summary is created when recording is enabled, and the start
timestamp t0 (time.time()) is recorded.  Recording the pulse shape is
subsumed by the fixed reshape_to_pulse field; the collaborator statistics
object is out of scope. -/
def Optimizer_prepare_optimization {α : Type} (s : OptimizerState α)
    (t0 : ℚ) : OptimizerState α :=
  let s1 := { s with min_costs := none, min_costs_par := none,
                     n_cost_fkt_eval := 0, n_jac_fkt_eval := 0 }
  let s2 :=
    if s1.save_intermediary_steps then
      { s1 with iter_num := 0, summary_costs := [], summary_parameters := [] }
    else s1
  { s2 with opt_start_time := t0 }

/-- OptimizationResult embeds the fields of
optimization_data.OptimizationResult checked by the claims; final_cost none
encodes _min_costs = np.inf (no completed evaluation).  The collaborator
plumbing fields (indices, optimizer back-reference, optim_summary,
optimization_stats) carry no verified content and are omitted. -/
structure OptimizationResult (α : Type) where
  final_cost : Option (List ℚ)
  final_parameters : Option α
  final_grad_norm : ℚ
  num_iter : ℕ
  termination_reason : String
  status : ℤ
deriving DecidableEq

/-- RunOutcome is the outcome of run_optimization as observed by the caller:
a returned result object, or a python exception propagating out. -/
inductive RunOutcome (α : Type) where
  | ok (result : OptimizationResult α)
  | raised (e : PyError)
deriving DecidableEq

/-- Optimizer_write_state_to_result embeds Optimizer.write_state_to_result
(optimize.py lines 265-298).  When use_jacobian_function is set it evaluates
np.linalg.norm(self.cost_jacobian_wrapper(self._min_costs_par)); if
_min_costs_par is still None (no cost evaluation completed), the wrapper body
executes None.reshape(...), which raises AttributeError.  Otherwise
cost_jacobian_wrapper applies reshape_to_pulse to its argument and the norm
of the resulting jacobian is the collaborator value simJacNorm.  The built
result always carries status 5 and the reason string of the source. -/
def Optimizer_write_state_to_result {α : Type} (simJacNorm : α → ℚ)
    (s : OptimizerState α) : RunOutcome α :=
  if s.use_jacobian_function then
    match s.min_costs_par with
    | none => .raised .attributeError
    | some par =>
        .ok { final_cost := s.min_costs
              final_parameters := some par
              final_grad_norm := simJacNorm (s.reshape_to_pulse par)
              num_iter := s.n_cost_fkt_eval
              termination_reason := "Maximum Wall Time Exceeded"
              status := 5 }
  else
    .ok { final_cost := s.min_costs
          final_parameters := s.min_costs_par
          final_grad_norm := 0
          num_iter := s.n_cost_fkt_eval
          termination_reason := "Maximum Wall Time Exceeded"
          status := 5 }

/-- least_squares_try_loop models the try block of
LeastSquaresOptimizer.run_optimization.  scipy.optimize.least_squares is the
out-of-scope black-box solver (spec section 1): it is modelled by the
sequence of (timestamp, flat parameter) cost queries it issues (scipy always
evaluates the objective at x0 first) together with the result it would
report on normal completion.  A WallTimeExceeded raised by the wrapper
propagates out of the solver and is caught by the except branch, which calls
write_state_to_result on the state at the raise. -/
def least_squares_try_loop {α : Type} (simCost : α → List ℚ)
    (simJacNorm : α → ℚ) (scipyResult : OptimizationResult α)
    (s : OptimizerState α) : List (ℚ × α) → RunOutcome α
  | [] => .ok scipyResult
  | (t, p) :: rest =>
      match Optimizer_cost_fktn_wrapper simCost s t p with
      | (s1, .wallTimeExceeded) => Optimizer_write_state_to_result simJacNorm s1
      | (s1, .ok _) => least_squares_try_loop simCost simJacNorm scipyResult s1 rest

/-- LeastSquaresOptimizer_run_optimization embeds
LeastSquaresOptimizer.run_optimization (optimize.py lines 343-386):
prepare_optimization at start time t0, then the solver loop with the
wall-time exception converted by write_state_to_result. -/
def LeastSquaresOptimizer_run_optimization {α : Type} (simCost : α → List ℚ)
    (simJacNorm : α → ℚ) (s : OptimizerState α) (t0 : ℚ)
    (queries : List (ℚ × α)) (scipyResult : OptimizationResult α) :
    RunOutcome α :=
  least_squares_try_loop simCost simJacNorm scipyResult
    (Optimizer_prepare_optimization s t0) queries

/-- Optimizer_init_termination_conditions embeds the termination-condition
handling of Optimizer.__init__ (optimize.py lines 110-113): the defaults are
used when the argument is None. -/
def Optimizer_init_termination_conditions :
    Option TerminationConditions → TerminationConditions
  | none => default_termination_conditions
  | some tc => tc

/-- SimulatedAnnealingConfig holds what SimulatedAnnealing.__init__
establishes as far as the termination policy is concerned: the inherited
termination_conditions attribute and the steps count handed to the
PulseAnnealer. -/
structure SimulatedAnnealingConfig where
  termination_conditions : TerminationConditions
  annealer_steps : ℕ
deriving DecidableEq

/-- SimulatedAnnealing_init embeds the termination-policy part of
SimulatedAnnealing.__init__ (optimize.py lines 640-668): the base
constructor substitutes the defaults for a missing policy, but the
PulseAnnealer is then built with
steps=termination_cond["max_iterations"], which subscripts the RAW argument;
when the argument is None this raises TypeError (NoneType is not
subscriptable). -/
def SimulatedAnnealing_init (termination_cond : Option TerminationConditions) :
    Except PyError SimulatedAnnealingConfig :=
  let tcs := Optimizer_init_termination_conditions termination_cond
  match termination_cond with
  | none => .error .typeError
  | some tc => .ok { termination_conditions := tcs
                     annealer_steps := tc.max_iterations }

/-- flatten_pulse embeds pulse.T.flatten() for a pulse of shape (T, C):
the transpose has shape (C, T) and row-major flattening sends flat index i
to transposed entry (i / T, i % T), that is to pulse entry (i % T, i / T). -/
def flatten_pulse (T C : ℕ) (p : Fin T → Fin C → ℚ) : Fin (C * T) → ℚ :=
  fun i =>
    have hCT : 0 < C * T := Nat.lt_of_le_of_lt (Nat.zero_le _) i.isLt
    have hT : 0 < T := by
      rcases Nat.eq_zero_or_pos T with h | h
      · rw [h, Nat.mul_zero] at hCT; exact absurd hCT (lt_irrefl 0)
      · exact h
    p ⟨i.val % T, Nat.mod_lt _ hT⟩
      ⟨i.val / T, (Nat.div_lt_iff_lt_mul hT).mpr i.isLt⟩

/-- reshape_pulse embeds flat.reshape((C, T)).T for a flat vector of length
C * T: entry (t, c) of the result is row c, column t of the reshaped (C, T)
array, i.e. flat entry c * T + t. -/
def reshape_pulse (T C : ℕ) (f : Fin (C * T) → ℚ) : Fin T → Fin C → ℚ :=
  fun t c =>
    f ⟨c.val * T + t.val, by
        have h1 : c.val * T + t.val < (c.val + 1) * T := by
          rw [Nat.succ_mul]; omega
        exact Nat.lt_of_lt_of_le h1 (Nat.mul_le_mul_right T c.isLt)⟩

/-- C4: for every T at least 1 and C at least 1, flattening a (T, C) pulse
by transposing and flattening row-major and then reshaping back to (C, T)
and transposing yields the original pulse exactly, and flattening after
reshaping yields the original flat vector exactly: the two pulse-shape
conversions are exact inverses. -/
theorem pulse_flatten_reshape_round_trip (T C : ℕ) (hT : 1 ≤ T) (_hC : 1 ≤ C)
    (p : Fin T → Fin C → ℚ) (f : Fin (C * T) → ℚ) :
    reshape_pulse T C (flatten_pulse T C p) = p ∧
    flatten_pulse T C (reshape_pulse T C f) = f := by
  constructor
  · funext t c
    simp only [reshape_pulse, flatten_pulse]
    have hmod : (c.val * T + t.val) % T = t.val := by
      rw [Nat.add_comm, Nat.add_mul_mod_self_right]
      exact Nat.mod_eq_of_lt t.isLt
    have hdiv : (c.val * T + t.val) / T = c.val := by
      rw [Nat.add_comm, Nat.add_mul_div_right _ _ (Nat.lt_of_lt_of_le Nat.one_pos hT)]
      rw [Nat.div_eq_of_lt t.isLt, Nat.zero_add]
    simp only [hmod, hdiv, Fin.eta]
  · funext i
    simp only [flatten_pulse, reshape_pulse]
    have h : i.val / T * T + i.val % T = i.val := Nat.div_add_mod' i.val T
    simp only [h, Fin.eta]

/-- c4_pulse is a concrete 2 x 3 pulse used by the round-trip witness. -/
def c4_pulse : Fin 2 → Fin 3 → ℚ := fun t c => (t.val : ℚ) + 10 * (c.val : ℚ)

/-- c4_flat is a concrete flat vector of length 3 * 2 used by the round-trip
witness. -/
def c4_flat : Fin (3 * 2) → ℚ := fun i => (i.val : ℚ)

/-- Witness for the round-trip theorem at T = 2, C = 3. -/
theorem pulse_flatten_reshape_round_trip_witness :
    (1 ≤ 2 ∧ 1 ≤ 3) ∧
    (reshape_pulse 2 3 (flatten_pulse 2 3 c4_pulse) = c4_pulse ∧
     flatten_pulse 2 3 (reshape_pulse 2 3 c4_flat) = c4_flat) :=
  ⟨⟨by norm_num, by norm_num⟩,
   pulse_flatten_reshape_round_trip 2 3 (by norm_num) (by norm_num) c4_pulse c4_flat⟩

/-- C5: a non-empty weight vector whose length differs from the number of
cost functions of the simulator makes the constructor raise ValueError; a
zero-length weight vector normalizes to None exactly as an absent one, and
with no weights the weighting step is the identity. -/
theorem cost_fktn_weights_validation (w : List ℚ) (n : ℕ) (costs : List ℚ)
    (hne : w ≠ []) (hlen : w.length ≠ n) :
    Optimizer_init_cost_fktn_weights (some w) n = .error .valueError ∧
    Optimizer_init_cost_fktn_weights (some []) n =
      Optimizer_init_cost_fktn_weights none n ∧
    apply_cost_fktn_weights none costs = costs := by
  refine ⟨?_, rfl, rfl⟩
  have h0 : ¬ (w.length = 0) := fun h => hne (List.length_eq_zero.mp h)
  have h1 : ¬ (n = w.length) := fun h => hlen h.symm
  simp [Optimizer_init_cost_fktn_weights, h0, h1]

/-- Witness for the weight-validation theorem with w = [1, 2] and three cost
functions. -/
theorem cost_fktn_weights_validation_witness :
    Optimizer_init_cost_fktn_weights (some [1, 2]) 3 = .error .valueError ∧
    Optimizer_init_cost_fktn_weights (some []) 3 =
      Optimizer_init_cost_fktn_weights none 3 ∧
    apply_cost_fktn_weights none [7, 8] = [7, 8] :=
  cost_fktn_weights_validation [1, 2] 3 [7, 8] (by decide) (by decide)

/-- PulseAnnealer_masked_step embeds the perturbation drawing of
PulseAnnealer.move (optimize.py lines 593-601): the random integer step
(each entry drawn from the inclusive range -step_size .. step_size, passed
here explicitly as the nondeterministic draw random_step) is zeroed at every
index where the uniform [0,1) draw update_mask exceeds step_ratio. -/
def PulseAnnealer_masked_step {n : ℕ} ( step_ratio : ℚ)
    (random_step : Fin n → ℤ) (update_mask : Fin n → ℚ) : Fin n → ℤ :=
  fun i => if update_mask i > step_ratio then 0 else random_step i

/-- PulseAnnealer_clamped_pulse embeds the clamping of PulseAnnealer.move
(optimize.py lines 603-610): new_pulse = pulse + step, then both exceedance
masks are computed from new_pulse BEFORE either assignment; the lower-bound
assignment is applied first and the upper-bound assignment second, so the
upper bound wins when both masks hold at one index. -/
def PulseAnnealer_clamped_pulse {n : ℕ} (pulse lower upper step : Fin n → ℤ) :
    Fin n → ℤ :=
  fun i =>
    let new := pulse i + step i
    if new > upper i then upper i
    else if new < lower i then lower i
    else new

/-- PulseAnnealer_move embeds PulseAnnealer.move (optimize.py lines
582-612).  The python type check (step size must be int) is subsumed by the
ℤ type of step_size; a zero step size raises ValueError.  The new state is
the clamped perturbed pulse. -/
def PulseAnnealer_move {n : ℕ} (step_size : ℤ) ( step_ratio : ℚ)
    (pulse lower upper random_step : Fin n → ℤ) (update_mask : Fin n → ℚ) :
    Except PyError (Fin n → ℤ) :=
  if step_size = 0 then .error .valueError
  else .ok (PulseAnnealer_clamped_pulse pulse lower upper
    (PulseAnnealer_masked_step step_ratio random_step update_mask))

/-- C8: for every state, per-element bounds with lower at most upper, and
nonzero integer step bound, one move() succeeds and every element of the
new state lies between its lower and its upper bound, whatever the random
draw and mask are; in particular starting at the upper bound never produces
an element above it.  The index i names one element of the new state. -/
theorem pulse_annealer_move_within_bounds {n : ℕ} (step_size : ℤ)
    ( step_ratio : ℚ) (pulse lower upper random_step : Fin n → ℤ)
    (update_mask : Fin n → ℚ) (i : Fin n)
    (hs : step_size ≠ 0) (hb : ∀ j, lower j ≤ upper j) :
    PulseAnnealer_move step_size step_ratio pulse lower upper random_step
        update_mask
      = .ok (PulseAnnealer_clamped_pulse pulse lower upper
          (PulseAnnealer_masked_step step_ratio random_step update_mask)) ∧
    lower i ≤ PulseAnnealer_clamped_pulse pulse lower upper
        (PulseAnnealer_masked_step step_ratio random_step update_mask) i ∧
    PulseAnnealer_clamped_pulse pulse lower upper
        (PulseAnnealer_masked_step step_ratio random_step update_mask) i
      ≤ upper i := by
  refine ⟨by simp [PulseAnnealer_move, hs], ?_, ?_⟩ <;>
  · simp only [PulseAnnealer_clamped_pulse]
    have hbi := hb i
    split
    · omega
    · split <;> omega

/-- c8_pulse is a concrete pulse sitting at its upper bound. -/
def c8_pulse : Fin 2 → ℤ := fun _ => 5

/-- c8_lower is the concrete lower bound array of the clamping witness. -/
def c8_lower : Fin 2 → ℤ := fun _ => 0

/-- c8_upper is the concrete upper bound array of the clamping witness. -/
def c8_upper : Fin 2 → ℤ := fun _ => 5

/-- c8_step is a concrete random draw pushing the pulse above its upper
bound. -/
def c8_step : Fin 2 → ℤ := fun _ => 1

/-- c8_mask is a concrete update mask keeping every perturbation. -/
def c8_mask : Fin 2 → ℚ := fun _ => 0

/-- Witness for the clamping theorem: pulse at its upper bound, step bound
1, element 0 of the moved state stays within bounds. -/
theorem pulse_annealer_move_within_bounds_witness :
    PulseAnnealer_move 1 1 c8_pulse c8_lower c8_upper c8_step c8_mask
      = .ok (PulseAnnealer_clamped_pulse c8_pulse c8_lower c8_upper
          (PulseAnnealer_masked_step 1 c8_step c8_mask)) ∧
    c8_lower 0 ≤ PulseAnnealer_clamped_pulse c8_pulse c8_lower c8_upper
        (PulseAnnealer_masked_step 1 c8_step c8_mask) 0 ∧
    PulseAnnealer_clamped_pulse c8_pulse c8_lower c8_upper
        (PulseAnnealer_masked_step 1 c8_step c8_mask) 0 ≤ c8_upper 0 :=
  pulse_annealer_move_within_bounds 1 1 c8_pulse c8_lower c8_upper c8_step
    c8_mask 0 (by decide) (by decide)

/-- C7: whenever the elapsed time at the moment cost_fktn_wrapper reads the
clock exceeds max_wall_time, the wrapper raises WallTimeExceeded, and its
entire outcome (state and result) is independent of the simulator cost
function, i.e. the simulator is not invoked for that evaluation.  simCost2
is an arbitrary second simulator. -/
theorem wall_time_checked_before_simulator {α : Type}
    (simCost simCost2 : α → List ℚ) (s : OptimizerState α) (now : ℚ)
    (params : α)
    (h : s.termination_conditions.max_wall_time < now - s.opt_start_time) :
    (Optimizer_cost_fktn_wrapper simCost s now params).2 = .wallTimeExceeded ∧
    Optimizer_cost_fktn_wrapper simCost s now params
      = Optimizer_cost_fktn_wrapper simCost2 s now params := by
  constructor <;> simp [Optimizer_cost_fktn_wrapper, if_pos h]

/-- C10: if cost_fktn_wrapper raises WallTimeExceeded, the optimizer state
after the call equals the state before it: the evaluation counter, the best
cost, the best pulse and the iteration summary are all untouched. -/
theorem wall_time_raise_preserves_state {α : Type} (simCost : α → List ℚ)
    (s : OptimizerState α) (now : ℚ) (params : α)
    (h : (Optimizer_cost_fktn_wrapper simCost s now params).2
      = .wallTimeExceeded) :
    (Optimizer_cost_fktn_wrapper simCost s now params).1 = s := by
  by_cases ht :
      s.termination_conditions.max_wall_time < now - s.opt_start_time
  · simp [Optimizer_cost_fktn_wrapper, if_pos ht]
  · exfalso
    simp [Optimizer_cost_fktn_wrapper, if_neg ht] at h

/-- C9: whenever the wall-time budget is not yet exhausted and the weighted
cost vector at the evaluated point is [3, 4], the scalar wrapper of
ScalarMinimizingOptimizer returns 25, the sum of the squared components. -/
theorem scalar_cost_is_sum_of_squares {α : Type} (simCost : α → List ℚ)
    (s : OptimizerState α) (now : ℚ) (params : α)
    (htime : ¬ (s.termination_conditions.max_wall_time
      < now - s.opt_start_time))
    (hcost : apply_cost_fktn_weights s.cost_fktn_weights
      (simCost (s.reshape_to_pulse params)) = [3, 4]) :
    (ScalarMinimizingOptimizer_cost_fktn_wrapper simCost s now params).2
      = .ok 25 := by
  simp only [ScalarMinimizingOptimizer_cost_fktn_wrapper,
    Optimizer_cost_fktn_wrapper, if_neg htime, hcost]
  norm_num [normSq]

/-- base_state is a concrete optimizer state over α = ℚ freshly prepared at
time 0, with the default termination conditions, no weights and no
recording; the reshape map is the identity (a 1 x 1 pulse). -/
def base_state : OptimizerState ℚ :=
  { termination_conditions := default_termination_conditions
    use_jacobian_function := true
    save_intermediary_steps := false
    cost_fktn_weights := none
    reshape_to_pulse := id
    opt_start_time := 0
    iter_num := 0
    summary_costs := []
    summary_parameters := []
    min_costs := none
    min_costs_par := none
    n_cost_fkt_eval := 0
    n_jac_fkt_eval := 0 }

/-- zero_wall_time_conditions is the default policy with max_wall_time set
to 0. -/
def zero_wall_time_conditions : TerminationConditions :=
  { default_termination_conditions with max_wall_time := 0 }

/-- c7_state is base_state with a zero wall-time budget. -/
def c7_state : OptimizerState ℚ :=
  { base_state with termination_conditions := zero_wall_time_conditions }

/-- c7_sim is a concrete simulator cost function. -/
def c7_sim : ℚ → List ℚ := fun _ => [1]

/-- c7_alt_sim is a second, different simulator cost function. -/
def c7_alt_sim : ℚ → List ℚ := fun _ => [99]

/-- Witness for the wall-time-first theorem: zero budget, clock at 1. -/
theorem wall_time_checked_before_simulator_witness :
    (Optimizer_cost_fktn_wrapper c7_sim c7_state 1 0).2 = .wallTimeExceeded ∧
    Optimizer_cost_fktn_wrapper c7_sim c7_state 1 0
      = Optimizer_cost_fktn_wrapper c7_alt_sim c7_state 1 0 :=
  wall_time_checked_before_simulator c7_sim c7_alt_sim c7_state 1 0
    (by norm_num [c7_state, base_state, zero_wall_time_conditions,
      default_termination_conditions])

/-- Witness for the state-preservation theorem: zero budget, clock at 2. -/
theorem wall_time_raise_preserves_state_witness :
    (Optimizer_cost_fktn_wrapper c7_sim c7_state 2 0).1 = c7_state :=
  wall_time_raise_preserves_state c7_sim c7_state 2 0
    (by norm_num [Optimizer_cost_fktn_wrapper, c7_state, base_state,
      zero_wall_time_conditions, default_termination_conditions])

/-- c9_sim is a simulator whose cost vector is [3, 4] everywhere. -/
def c9_sim : ℚ → List ℚ := fun _ => [3, 4]

/-- Witness for the sum-of-squares theorem: cost vector [3, 4] gives 25. -/
theorem scalar_cost_is_sum_of_squares_witness :
    (ScalarMinimizingOptimizer_cost_fktn_wrapper c9_sim base_state 1 0).2
      = .ok 25 :=
  scalar_cost_is_sum_of_squares c9_sim base_state 1 0
    (by norm_num [base_state, default_termination_conditions]) rfl

/-- c2_sim is a simulator with unweighted cost vector [3] everywhere. -/
def c2_sim : ℚ → List ℚ := fun _ => [3]

/-- c2_state is a prepared state recording intermediary steps with weight
vector [2]. -/
def c2_state : OptimizerState ℚ :=
  { base_state with save_intermediary_steps := true
                    cost_fktn_weights := some [2] }

/-- C2 is refuted by the code: with recording enabled and weight vector [2],
the simulator returns the unweighted cost vector [3], yet after one wrapper
call the iteration summary holds [6] and not [3].  The statement
costs *= self.cost_fktn_weights mutates in place the very ndarray that was
appended to the summary, although the source comment says the weights are
applied after saving the values. -/
theorem iteration_summary_records_weighted_costs :
    c2_sim (c2_state.reshape_to_pulse 0) = [3] ∧
    (Optimizer_cost_fktn_wrapper c2_sim c2_state 1 0).1.summary_costs
      = [[6]] ∧
    (Optimizer_cost_fktn_wrapper c2_sim c2_state 1 0).1.summary_costs
      ≠ [[3]] := by
  refine ⟨rfl, ?_, ?_⟩ <;>
    norm_num [Optimizer_cost_fktn_wrapper, c2_state, base_state,
      default_termination_conditions, apply_cost_fktn_weights,
      norm_lt_min_costs, c2_sim]

/-- c3_sim is a simulator returning the unweighted cost vector [1] at the
flat point 1 and [5] elsewhere. -/
def c3_sim : ℚ → List ℚ := fun p => if p = 1 then [1] else [5]

/-- c3_state is a prepared state with weight vector [10] and no recording. -/
def c3_state : OptimizerState ℚ :=
  { base_state with cost_fktn_weights := some [10] }

/-- c3_state_after_first is the state after evaluating the cost at the flat
point 1 (unweighted cost vector [1]). -/
def c3_state_after_first : OptimizerState ℚ :=
  (Optimizer_cost_fktn_wrapper c3_sim c3_state 1 1).1

/-- c3_state_after_second is the state after next evaluating the cost at the
flat point 2 (unweighted cost vector [5]). -/
def c3_state_after_second : OptimizerState ℚ :=
  (Optimizer_cost_fktn_wrapper c3_sim c3_state_after_first 2 2).1

/-- C3 is refuted by the code: with weight vector [10] the in-place
weighting costs *= weights corrupts the stored best vector, so over the
unweighted evaluation sequence [1], [5] the tracked best cost goes from
[10] to [50]: its (squared) norm strictly increases, and it exceeds the
norm of the unweighted vector [5] seen in the run. -/
theorem best_cost_tracking_corrupted_by_weights :
    c3_sim 1 = [1] ∧ c3_sim 2 = [5] ∧
    c3_state_after_first.min_costs = some [10] ∧
    c3_state_after_second.min_costs = some [50] ∧
    normSq [10] < normSq [50] ∧
    normSq [5] < normSq [50] := by
  refine ⟨by norm_num [c3_sim], by norm_num [c3_sim], ?_, ?_, ?_, ?_⟩ <;>
    norm_num [c3_state_after_second, c3_state_after_first,
      Optimizer_cost_fktn_wrapper, c3_state, base_state,
      default_termination_conditions, apply_cost_fktn_weights,
      norm_lt_min_costs, c3_sim, normSq]

/-- C6 is refuted by the code for SimulatedAnnealing: the base constructor
does substitute the defaults for a missing termination policy, but
SimulatedAnnealing.__init__ then subscripts the raw None argument and raises
TypeError, while a supplied policy works and hands its max_iterations to the
annealer. -/
theorem simulated_annealing_missing_termination_cond_crashes :
    Optimizer_init_termination_conditions none
      = default_termination_conditions ∧
    SimulatedAnnealing_init none = .error .typeError ∧
    SimulatedAnnealing_init (some default_termination_conditions)
      = .ok { termination_conditions := default_termination_conditions
              annealer_steps := 10000 } :=
  ⟨rfl, rfl, rfl⟩

/-- c1_sim is a simulator cost function for the wall-time run. -/
def c1_sim : ℚ → List ℚ := fun _ => [1]

/-- c1_jac_norm is the collaborator jacobian-norm value (never reached in
the modelled run). -/
def c1_jac_norm : ℚ → ℚ := fun _ => 0

/-- c1_scipy_result is the result the black-box solver would report on
normal completion (never reached in the modelled run). -/
def c1_scipy_result : OptimizationResult ℚ :=
  { final_cost := some [0]
    final_parameters := some 0
    final_grad_norm := 0
    num_iter := 1
    termination_reason := "converged"
    status := 1 }

/-- C1 is refuted by the code in its default configuration: with
max_wall_time = 0 the first cost query (issued at a strictly later clock
reading) raises WallTimeExceeded before any evaluation completes, so
_min_costs_par is still None; the except branch calls
write_state_to_result, which with use_jacobian_function=True (the default)
executes None.reshape(...) and lets AttributeError escape to the caller.
Only with use_jacobian_function=False does the run return the status-5
result with reason Maximum Wall Time Exceeded that the claim demands. -/
theorem least_squares_zero_wall_time_outcome :
    LeastSquaresOptimizer_run_optimization c1_sim c1_jac_norm c7_state 0
        [(1, 0)] c1_scipy_result
      = .raised .attributeError ∧
    LeastSquaresOptimizer_run_optimization c1_sim c1_jac_norm
        { c7_state with use_jacobian_function := false } 0 [(1, 0)]
        c1_scipy_result
      = .ok { final_cost := none
              final_parameters := none
              final_grad_norm := 0
              num_iter := 0
              termination_reason := "Maximum Wall Time Exceeded"
              status := 5 } := by
  constructor <;>
    norm_num [LeastSquaresOptimizer_run_optimization, least_squares_try_loop,
      Optimizer_prepare_optimization, Optimizer_cost_fktn_wrapper,
      Optimizer_write_state_to_result, c7_state, base_state,
      zero_wall_time_conditions, default_termination_conditions]
